import Mathlib

/-!
Shallow embedding of the state store and helper functions of the
Identity-access-management attendance application.

The embedding translates `src/src/context/AttendanceContext.tsx`
(types, `initialState`, `attendanceReducer`), `calculateDuration` from
the MarkAttendance page, and `validateForm` from `src/src/pages/AddPerson.tsx`.

Modelling conventions:
* JavaScript `Date` values are modelled as opaque `Nat` timestamps; the
  reducer takes the current clock value `now : Nat` as an explicit
  parameter standing for the `new Date()` it evaluates internally.
* JavaScript numbers used as counters are modelled as `Int` (the
  `DELETE_PERSON` case decrements unconditionally, so counters can go
  negative).
* A TypeScript optional field `f?: T` becomes `Option T`; a field of a
  `Partial` patch object becomes `Option T` for a required field and
  `Option (Option T)` for an optional one (`none` = key absent,
  `some none` = key present with value `undefined`), matching the
  semantics of the object-spread merge `\x7b ...entity, ...updates \x7d`.
* JavaScript string truthiness (`undefined` and `""` are falsy) is
  modelled by `optStrTruthy`.
-/

/-- JavaScript truthiness of a `string | undefined` value:
`undefined` and the empty string are falsy. -/
def optStrTruthy : Option String → Bool
  | none => false
  | some s => !s.isEmpty

/-- Status of an attendance record (TS union
`Present | Absent | Late | MCR`). -/
inductive AttStatus where
  | present
  | absent
  | late
  | mcr
deriving DecidableEq, Repr

/-- Status of a training session (TS union
`in-progress | completed | failed`). -/
inductive TrainStatus where
  | inProgress
  | completed
  | failed
deriving DecidableEq, Repr

/-- Model of `Person` from AttendanceContext.tsx. -/
structure Person where
  id : String
  name : String
  email : Option String
  department : Option String
  imageCount : Option Nat
  isActive : Bool
  createdAt : Nat
deriving DecidableEq, Repr

/-- Model of `AttendanceRecord` from AttendanceContext.tsx. -/
structure AttendanceRecord where
  id : String
  personId : String
  personName : String
  date : String
  clockInTime : Option String
  clockOutTime : Option String
  duration : Option String
  status : AttStatus
  confidence : Option Nat
deriving DecidableEq, Repr

/-- Model of `TrainingSession` from AttendanceContext.tsx. -/
structure TrainingSession where
  id : String
  personId : String
  personName : String
  imagesCaptured : Nat
  totalImages : Nat
  status : TrainStatus
  startTime : Nat
  endTime : Option Nat
deriving DecidableEq, Repr

/-- The `currentSession` component of `AttendanceState`. -/
structure CurrentSession where
  isActive : Bool
  lectureDuration : Option String
  startTime : Option Nat
deriving DecidableEq, Repr

/-- The `statistics` component of `AttendanceState`. -/
structure Statistics where
  totalPersons : Int
  presentToday : Int
  totalClockIns : Int
  totalClockOuts : Int
deriving DecidableEq, Repr

/-- Model of `AttendanceState` from AttendanceContext.tsx. -/
structure AttendanceState where
  persons : List Person
  attendanceRecords : List AttendanceRecord
  trainingSessions : List TrainingSession
  currentSession : CurrentSession
  statistics : Statistics
deriving DecidableEq, Repr

/-- A `Partial<Person>` patch (payload of `UPDATE_PERSON`). -/
structure PersonPatch where
  id : Option String := none
  name : Option String := none
  email : Option (Option String) := none
  department : Option (Option String) := none
  imageCount : Option (Option Nat) := none
  isActive : Option Bool := none
  createdAt : Option Nat := none
deriving DecidableEq, Repr

/-- A `Partial<AttendanceRecord>` patch (payload of
`UPDATE_ATTENDANCE_RECORD`). -/
structure RecordPatch where
  id : Option String := none
  personId : Option String := none
  personName : Option String := none
  date : Option String := none
  clockInTime : Option (Option String) := none
  clockOutTime : Option (Option String) := none
  duration : Option (Option String) := none
  status : Option AttStatus := none
  confidence : Option (Option Nat) := none
deriving DecidableEq, Repr

/-- A `Partial<TrainingSession>` patch (payload of
`UPDATE_TRAINING_SESSION`). -/
structure TrainingPatch where
  id : Option String := none
  personId : Option String := none
  personName : Option String := none
  imagesCaptured : Option Nat := none
  totalImages : Option Nat := none
  status : Option TrainStatus := none
  startTime : Option Nat := none
  endTime : Option (Option Nat) := none
deriving DecidableEq, Repr

/-- The object-spread merge `\x7b ...person, ...updates \x7d`. -/
def mergePerson (p : Person) (u : PersonPatch) : Person :=
  { id := u.id.getD p.id
    name := u.name.getD p.name
    email := u.email.getD p.email
    department := u.department.getD p.department
    imageCount := u.imageCount.getD p.imageCount
    isActive := u.isActive.getD p.isActive
    createdAt := u.createdAt.getD p.createdAt }

/-- The object-spread merge `\x7b ...record, ...updates \x7d`. -/
def mergeRecord (r : AttendanceRecord) (u : RecordPatch) : AttendanceRecord :=
  { id := u.id.getD r.id
    personId := u.personId.getD r.personId
    personName := u.personName.getD r.personName
    date := u.date.getD r.date
    clockInTime := u.clockInTime.getD r.clockInTime
    clockOutTime := u.clockOutTime.getD r.clockOutTime
    duration := u.duration.getD r.duration
    status := u.status.getD r.status
    confidence := u.confidence.getD r.confidence }

/-- The object-spread merge `\x7b ...session, ...updates \x7d`. -/
def mergeSession (s : TrainingSession) (u : TrainingPatch) : TrainingSession :=
  { id := u.id.getD s.id
    personId := u.personId.getD s.personId
    personName := u.personName.getD s.personName
    imagesCaptured := u.imagesCaptured.getD s.imagesCaptured
    totalImages := u.totalImages.getD s.totalImages
    status := u.status.getD s.status
    startTime := u.startTime.getD s.startTime
    endTime := u.endTime.getD s.endTime }

/-- Model of `AttendanceAction` from AttendanceContext.tsx:
the ten declared action variants, `UPDATE_STATISTICS` included. -/
inductive AttendanceAction where
  | addPerson (payload : Person)
  | updatePerson (id : String) (updates : PersonPatch)
  | deletePerson (id : String)
  | addAttendanceRecord (payload : AttendanceRecord)
  | updateAttendanceRecord (id : String) (updates : RecordPatch)
  | startTrainingSession (payload : TrainingSession)
  | updateTrainingSession (id : String) (updates : TrainingPatch)
  | startAttendanceSession (lectureDuration : String)
  | endAttendanceSession
  | updateStatistics
deriving DecidableEq, Repr

/-- Model of `initialState` from AttendanceContext.tsx (the `Date` literals are
numbered 1, 2, 3 in order). -/
def initialState : AttendanceState :=
  { persons :=
      [ { id := "1", name := "Abhinav", email := some "abhinav@example.com",
          department := some "Engineering", imageCount := some 101,
          isActive := true, createdAt := 1 },
        { id := "2", name := "Venkat", email := some "venkat@example.com",
          department := some "Engineering", imageCount := some 101,
          isActive := true, createdAt := 2 },
        { id := "3", name := "Ashritha", email := some "ashritha@example.com",
          department := some "Design", imageCount := some 101,
          isActive := true, createdAt := 3 } ]
    attendanceRecords := []
    trainingSessions := []
    currentSession := { isActive := false, lectureDuration := none, startTime := none }
    statistics := { totalPersons := 3, presentToday := 0,
                    totalClockIns := 0, totalClockOuts := 0 } }

/-- Model of `attendanceReducer` from AttendanceContext.tsx.  `now` stands for
the value of `new Date()` evaluated inside the
`START_ATTENDANCE_SESSION` case. -/
def attendanceReducer (now : Nat) (state : AttendanceState)
    (action : AttendanceAction) : AttendanceState :=
  match action with
  | .addPerson payload =>
      { state with
        persons := state.persons ++ [payload]
        statistics := { state.statistics with
                        totalPersons := state.statistics.totalPersons + 1 } }
  | .updatePerson id updates =>
      { state with
        persons := state.persons.map fun person =>
          if person.id = id then mergePerson person updates else person }
  | .deletePerson id =>
      { state with
        persons := state.persons.filter fun person => person.id ≠ id
        statistics := { state.statistics with
                        totalPersons := state.statistics.totalPersons - 1 } }
  | .addAttendanceRecord payload =>
      let newRecord := payload
      let isClockIn := optStrTruthy newRecord.clockInTime &&
                       !optStrTruthy newRecord.clockOutTime
      let isClockOut := optStrTruthy newRecord.clockOutTime
      { state with
        attendanceRecords := state.attendanceRecords ++ [newRecord]
        statistics := { state.statistics with
                        totalClockIns :=
                          if isClockIn then state.statistics.totalClockIns + 1
                          else state.statistics.totalClockIns
                        totalClockOuts :=
                          if isClockOut then state.statistics.totalClockOuts + 1
                          else state.statistics.totalClockOuts
                        presentToday :=
                          if newRecord.status = .present then
                            state.statistics.presentToday + 1
                          else state.statistics.presentToday } }
  | .updateAttendanceRecord id updates =>
      { state with
        attendanceRecords := state.attendanceRecords.map fun record =>
          if record.id = id then mergeRecord record updates else record }
  | .startTrainingSession payload =>
      { state with trainingSessions := state.trainingSessions ++ [payload] }
  | .updateTrainingSession id updates =>
      { state with
        trainingSessions := state.trainingSessions.map fun session =>
          if session.id = id then mergeSession session updates else session }
  | .startAttendanceSession lectureDuration =>
      { state with
        currentSession := { isActive := true
                            lectureDuration := some lectureDuration
                            startTime := some now } }
  | .endAttendanceSession =>
      { state with
        currentSession := { isActive := false
                            lectureDuration := none
                            startTime := none } }
  | .updateStatistics => state

/-- Applying a sequence of timestamped actions to a state, left to
right (each dispatch carries the clock value at which it runs). -/
def applyActions (state : AttendanceState)
    (actions : List (Nat × AttendanceAction)) : AttendanceState :=
  match actions with
  | [] => state
  | (now, a) :: rest => applyActions (attendanceReducer now state a) rest

/-- Recognizer for `ADD_PERSON` actions. -/
def isAddPersonAction : AttendanceAction → Bool
  | .addPerson _ => true
  | _ => false

/-- Recognizer for `DELETE_PERSON` actions. -/
def isDeletePersonAction : AttendanceAction → Bool
  | .deletePerson _ => true
  | _ => false

/-- Number of `ADD_PERSON` actions in a trace. -/
def countAdds (actions : List (Nat × AttendanceAction)) : Nat :=
  actions.countP fun ta => isAddPersonAction ta.2

/-- Number of `DELETE_PERSON` actions in a trace. -/
def countDeletes (actions : List (Nat × AttendanceAction)) : Nat :=
  actions.countP fun ta => isDeletePersonAction ta.2

lemma filter_ne_id_of_forall_ne (l : List Person) (i : String)
    (h : ∀ p ∈ l, p.id ≠ i) : (l.filter fun p => p.id ≠ i) = l := by
  apply List.filter_eq_self.mpr
  intro p hp
  simpa using h p hp

lemma filter_ne_length_add_matched (l : List Person) (i : String)
    (h : (l.map Person.id).Nodup) :
    (l.filter fun p => p.id ≠ i).length +
      (if l.any fun p => p.id = i then 1 else 0) = l.length := by
  induction l with
  | nil => simp
  | cons p t ih =>
    simp only [List.map_cons, List.nodup_cons] at h
    obtain ⟨hp, ht⟩ := h
    by_cases hpi : p.id = i
    · have hnone : ∀ q ∈ t, q.id ≠ i := by
        intro q hq he
        have hm : q.id ∈ t.map Person.id := List.mem_map_of_mem Person.id hq
        rw [he, ← hpi] at hm
        exact hp hm
      have h1 : (t.filter fun p => p.id ≠ i) = t := filter_ne_id_of_forall_ne t i hnone
      have hac : ((p :: t).any fun q => q.id = i) = true := by
        simp [List.any_cons, hpi]
      have hfc : ((p :: t).filter fun q => q.id ≠ i) = t.filter fun q => q.id ≠ i := by
        simp [List.filter_cons, hpi]
      rw [hfc, h1, hac, List.length_cons]
      simp
    · have h2 := ih ht
      have hac : ((p :: t).any fun q => q.id = i) = (t.any fun q => q.id = i) := by
        simp [List.any_cons, hpi]
      have hfc : ((p :: t).filter fun q => q.id ≠ i)
          = p :: (t.filter fun q => q.id ≠ i) := by
        simp [List.filter_cons, hpi]
      rw [hfc, hac, List.length_cons, List.length_cons]
      omega

lemma nodup_ids_filter (l : List Person) (pr : Person → Bool)
    (h : (l.map Person.id).Nodup) : ((l.filter pr).map Person.id).Nodup :=
  ((List.filter_sublist l).map Person.id).nodup h

lemma totalPersons_accounting (actions : List (Nat × AttendanceAction)) :
    ∀ state : AttendanceState,
      (applyActions state actions).statistics.totalPersons
        = state.statistics.totalPersons + countAdds actions - countDeletes actions := by
  induction actions with
  | nil => intro s; simp [applyActions, countAdds, countDeletes]
  | cons ta rest ih =>
    obtain ⟨now, a⟩ := ta
    intro s
    have hstep : applyActions s ((now, a) :: rest)
        = applyActions (attendanceReducer now s a) rest := rfl
    rw [hstep, ih]
    cases a <;>
      simp [attendanceReducer, countAdds, countDeletes, List.countP_cons,
        isAddPersonAction, isDeletePersonAction] <;>
      omega


/-- Contribution of one action to the count of matched deletions: 1 for a
`DELETE_PERSON` whose id matches at least one roster entry of `s`, else 0. -/
def deleteMatchCount (s : AttendanceState) : AttendanceAction → Nat
  | .deletePerson i => if s.persons.any fun p => p.id = i then 1 else 0
  | _ => 0

/-- Number of `DELETE_PERSON` actions in a trace whose id matches at
least one roster entry at the moment the action is applied. -/
def matchedDeletes (state : AttendanceState) :
    List (Nat × AttendanceAction) → Nat
  | [] => 0
  | (now, a) :: rest =>
      deleteMatchCount state a + matchedDeletes (attendanceReducer now state a) rest

/-- An action is roster-safe for a state when it is not an `ADD_PERSON`
with an id already in the roster and not an `UPDATE_PERSON` whose patch
rewrites the `id` field. -/
def actionRosterSafe (s : AttendanceState) : AttendanceAction → Bool
  | .addPerson p => !(s.persons.any fun q => q.id = p.id)
  | .updatePerson _ u => u.id.isNone
  | _ => true

/-- A trace is roster-safe for a state when every action in it is
roster-safe at the moment it is applied. -/
def rosterSafe (state : AttendanceState) :
    List (Nat × AttendanceAction) → Bool
  | [] => true
  | (now, a) :: rest =>
      actionRosterSafe state a && rosterSafe (attendanceReducer now state a) rest

lemma roster_accounting (actions : List (Nat × AttendanceAction)) :
    ∀ state : AttendanceState, (state.persons.map Person.id).Nodup →
      rosterSafe state actions = true →
      ((applyActions state actions).persons.map Person.id).Nodup ∧
      (applyActions state actions).persons.length + matchedDeletes state actions
        = state.persons.length + countAdds actions := by
  induction actions with
  | nil =>
    intro s hnd _
    simpa [applyActions, matchedDeletes, countAdds] using hnd
  | cons ta rest ih =>
    obtain ⟨now, a⟩ := ta
    intro s hnd hsafe
    cases a with
    | addPerson p =>
      simp only [rosterSafe, actionRosterSafe, Bool.and_eq_true] at hsafe
      obtain ⟨hsafe1, hsafer⟩ := hsafe
      have hfresh : p.id ∉ s.persons.map Person.id := by
        simp only [Bool.not_eq_true', List.any_eq_false, decide_eq_true_eq] at hsafe1
        simp only [List.mem_map]
        rintro ⟨q, hq, hqe⟩
        exact hsafe1 q hq hqe
      have hnd2 : (((attendanceReducer now s (.addPerson p)).persons).map Person.id).Nodup := by
        simp [attendanceReducer, List.nodup_append, hnd, hfresh]
      obtain ⟨hA, hB⟩ := ih (attendanceReducer now s (.addPerson p)) hnd2 hsafer
      refine ⟨hA, ?_⟩
      show (applyActions (attendanceReducer now s (.addPerson p)) rest).persons.length
          + (deleteMatchCount s (.addPerson p)
             + matchedDeletes (attendanceReducer now s (.addPerson p)) rest)
          = s.persons.length + countAdds ((now, .addPerson p) :: rest)
      simp [attendanceReducer, deleteMatchCount, countAdds, List.countP_cons,
        isAddPersonAction] at hB ⊢
      omega
    | updatePerson i u =>
      simp only [rosterSafe, actionRosterSafe, Bool.and_eq_true] at hsafe
      obtain ⟨hsafe1, hsafer⟩ := hsafe
      have hids : ((attendanceReducer now s (.updatePerson i u)).persons).map Person.id
          = s.persons.map Person.id := by
        simp only [attendanceReducer, List.map_map]
        apply List.map_congr_left
        intro q _
        by_cases hq : q.id = i
        · simp [Function.comp, hq, mergePerson, Option.isNone_iff_eq_none.mp hsafe1]
        · simp [Function.comp, hq]
      obtain ⟨hA, hB⟩ := ih (attendanceReducer now s (.updatePerson i u))
        (by rw [hids]; exact hnd) hsafer
      refine ⟨hA, ?_⟩
      show (applyActions (attendanceReducer now s (.updatePerson i u)) rest).persons.length
          + (deleteMatchCount s (.updatePerson i u)
             + matchedDeletes (attendanceReducer now s (.updatePerson i u)) rest)
          = s.persons.length + countAdds ((now, .updatePerson i u) :: rest)
      simp [attendanceReducer, deleteMatchCount, countAdds, List.countP_cons,
        isAddPersonAction] at hB ⊢
      omega
    | deletePerson i =>
      simp only [rosterSafe, actionRosterSafe, Bool.true_and] at hsafe
      have hnd2 : (((attendanceReducer now s (.deletePerson i)).persons).map Person.id).Nodup := by
        simpa [attendanceReducer] using
          nodup_ids_filter s.persons (fun p => p.id ≠ i) hnd
      obtain ⟨hA, hB⟩ := ih (attendanceReducer now s (.deletePerson i)) hnd2 hsafe
      refine ⟨hA, ?_⟩
      show (applyActions (attendanceReducer now s (.deletePerson i)) rest).persons.length
          + (deleteMatchCount s (.deletePerson i)
             + matchedDeletes (attendanceReducer now s (.deletePerson i)) rest)
          = s.persons.length + countAdds ((now, .deletePerson i) :: rest)
      have hflt := filter_ne_length_add_matched s.persons i hnd
      have hred : (attendanceReducer now s (.deletePerson i)).persons
          = s.persons.filter fun p => p.id ≠ i := rfl
      rw [hred] at hB
      simp [deleteMatchCount, countAdds, List.countP_cons, isAddPersonAction] at hB hflt ⊢
      omega
    | addAttendanceRecord r =>
      simp only [rosterSafe, actionRosterSafe, Bool.true_and] at hsafe
      obtain ⟨hA, hB⟩ := ih _ (by simpa [attendanceReducer] using hnd) hsafe
      refine ⟨hA, ?_⟩
      show (applyActions (attendanceReducer now s (.addAttendanceRecord r)) rest).persons.length
          + (deleteMatchCount s (.addAttendanceRecord r)
             + matchedDeletes (attendanceReducer now s (.addAttendanceRecord r)) rest)
          = s.persons.length + countAdds ((now, .addAttendanceRecord r) :: rest)
      simp [attendanceReducer, deleteMatchCount, countAdds, List.countP_cons,
        isAddPersonAction] at hB ⊢
      omega
    | updateAttendanceRecord i u =>
      simp only [rosterSafe, actionRosterSafe, Bool.true_and] at hsafe
      obtain ⟨hA, hB⟩ := ih _ (by simpa [attendanceReducer] using hnd) hsafe
      refine ⟨hA, ?_⟩
      show (applyActions (attendanceReducer now s (.updateAttendanceRecord i u)) rest).persons.length
          + (deleteMatchCount s (.updateAttendanceRecord i u)
             + matchedDeletes (attendanceReducer now s (.updateAttendanceRecord i u)) rest)
          = s.persons.length + countAdds ((now, .updateAttendanceRecord i u) :: rest)
      simp [attendanceReducer, deleteMatchCount, countAdds, List.countP_cons,
        isAddPersonAction] at hB ⊢
      omega
    | startTrainingSession t =>
      simp only [rosterSafe, actionRosterSafe, Bool.true_and] at hsafe
      obtain ⟨hA, hB⟩ := ih _ (by simpa [attendanceReducer] using hnd) hsafe
      refine ⟨hA, ?_⟩
      show (applyActions (attendanceReducer now s (.startTrainingSession t)) rest).persons.length
          + (deleteMatchCount s (.startTrainingSession t)
             + matchedDeletes (attendanceReducer now s (.startTrainingSession t)) rest)
          = s.persons.length + countAdds ((now, .startTrainingSession t) :: rest)
      simp [attendanceReducer, deleteMatchCount, countAdds, List.countP_cons,
        isAddPersonAction] at hB ⊢
      omega
    | updateTrainingSession i u =>
      simp only [rosterSafe, actionRosterSafe, Bool.true_and] at hsafe
      obtain ⟨hA, hB⟩ := ih _ (by simpa [attendanceReducer] using hnd) hsafe
      refine ⟨hA, ?_⟩
      show (applyActions (attendanceReducer now s (.updateTrainingSession i u)) rest).persons.length
          + (deleteMatchCount s (.updateTrainingSession i u)
             + matchedDeletes (attendanceReducer now s (.updateTrainingSession i u)) rest)
          = s.persons.length + countAdds ((now, .updateTrainingSession i u) :: rest)
      simp [attendanceReducer, deleteMatchCount, countAdds, List.countP_cons,
        isAddPersonAction] at hB ⊢
      omega
    | startAttendanceSession d =>
      simp only [rosterSafe, actionRosterSafe, Bool.true_and] at hsafe
      obtain ⟨hA, hB⟩ := ih _ (by simpa [attendanceReducer] using hnd) hsafe
      refine ⟨hA, ?_⟩
      show (applyActions (attendanceReducer now s (.startAttendanceSession d)) rest).persons.length
          + (deleteMatchCount s (.startAttendanceSession d)
             + matchedDeletes (attendanceReducer now s (.startAttendanceSession d)) rest)
          = s.persons.length + countAdds ((now, .startAttendanceSession d) :: rest)
      simp [attendanceReducer, deleteMatchCount, countAdds, List.countP_cons,
        isAddPersonAction] at hB ⊢
      omega
    | endAttendanceSession =>
      simp only [rosterSafe, actionRosterSafe, Bool.true_and] at hsafe
      obtain ⟨hA, hB⟩ := ih _ (by simpa [attendanceReducer] using hnd) hsafe
      refine ⟨hA, ?_⟩
      show (applyActions (attendanceReducer now s .endAttendanceSession) rest).persons.length
          + (deleteMatchCount s .endAttendanceSession
             + matchedDeletes (attendanceReducer now s .endAttendanceSession) rest)
          = s.persons.length + countAdds ((now, .endAttendanceSession) :: rest)
      simp [attendanceReducer, deleteMatchCount, countAdds, List.countP_cons,
        isAddPersonAction] at hB ⊢
      omega
    | updateStatistics =>
      simp only [rosterSafe, actionRosterSafe, Bool.true_and] at hsafe
      obtain ⟨hA, hB⟩ := ih _ (by simpa [attendanceReducer] using hnd) hsafe
      refine ⟨hA, ?_⟩
      show (applyActions (attendanceReducer now s .updateStatistics) rest).persons.length
          + (deleteMatchCount s .updateStatistics
             + matchedDeletes (attendanceReducer now s .updateStatistics) rest)
          = s.persons.length + countAdds ((now, .updateStatistics) :: rest)
      simp [attendanceReducer, deleteMatchCount, countAdds, List.countP_cons,
        isAddPersonAction] at hB ⊢
      omega

/-- A person whose id duplicates the seeded id "1", used to exhibit the
duplicate-id behaviour of the store. -/
def dupPersonC1 : Person :=
  { id := "1", name := "Dup", email := none, department := none,
    imageCount := none, isActive := true, createdAt := 11 }

/-- Trace adding a duplicate of id "1" and then deleting id "1". -/
def dupTraceC1 : List (Nat × AttendanceAction) :=
  [(0, .addPerson dupPersonC1), (1, .deletePerson "1")]

/-- C1 counterexample: starting from the initial state, adding a person
whose id "1" duplicates a seeded roster entry and then applying one
DeletePerson for id "1" removes two roster entries at once, so the
roster's length (2) differs from its initial length plus the number of
AddPerson actions minus the number of matched DeletePerson actions
(3 + 1 - 1 = 3), refuting the roster-length half of the claim. -/
theorem claim_C1_counterexample :
    countAdds dupTraceC1 = 1 ∧ matchedDeletes initialState dupTraceC1 = 1 ∧
    initialState.persons.length = 3 ∧
    (applyActions initialState dupTraceC1).persons.length = 2 ∧
    (applyActions initialState dupTraceC1).persons.length
      ≠ initialState.persons.length + countAdds dupTraceC1
        - matchedDeletes initialState dupTraceC1 := by
  decide

/-- C1 (amended): starting from the initial state, after applying any
sequence of store actions, `statistics.totalPersons` equals its initial
value plus the number of AddPerson actions minus the number of
DeletePerson actions (counted regardless of whether the deleted id
existed); and provided the trace never creates a duplicate person id
(each AddPerson id is fresh when applied and no UpdatePerson patch
rewrites an id), the roster's length plus the number of matched
DeletePerson actions equals its initial length plus the number of
AddPerson actions. -/
theorem claim_C1_accounting (actions : List (Nat × AttendanceAction))
    (hsafe : rosterSafe initialState actions = true) :
    (applyActions initialState actions).statistics.totalPersons
        = initialState.statistics.totalPersons
          + countAdds actions - countDeletes actions ∧
    (applyActions initialState actions).persons.length
        + matchedDeletes initialState actions
      = initialState.persons.length + countAdds actions :=
  ⟨totalPersons_accounting actions initialState,
   (roster_accounting actions initialState (by decide) hsafe).2⟩

/-- A fresh fourth person, id "4". -/
def witnessPersonC1 : Person :=
  { id := "4", name := "Dana", email := none, department := none,
    imageCount := none, isActive := true, createdAt := 10 }

/-- A roster-safe trace: add id "4", delete id "4" (matched), delete
id "9" (unmatched). -/
def witnessTraceC1 : List (Nat × AttendanceAction) :=
  [(5, .addPerson witnessPersonC1), (6, .deletePerson "4"), (7, .deletePerson "9")]

/-- Witness for the C1 theorem at a concrete roster-safe trace. -/
theorem claim_C1_accounting_witness :
    rosterSafe initialState witnessTraceC1 = true ∧
    ((applyActions initialState witnessTraceC1).statistics.totalPersons
        = initialState.statistics.totalPersons
          + countAdds witnessTraceC1 - countDeletes witnessTraceC1 ∧
     (applyActions initialState witnessTraceC1).persons.length
        + matchedDeletes initialState witnessTraceC1
      = initialState.persons.length + countAdds witnessTraceC1) :=
  ⟨by decide, claim_C1_accounting witnessTraceC1 (by decide)⟩

/-- A person whose id duplicates the seeded id "2". -/
def dupPersonC5 : Person :=
  { id := "2", name := "Dup", email := none, department := none,
    imageCount := none, isActive := true, createdAt := 12 }

/-- C5 counterexample: the state reached from the initial state by a
single AddPerson action whose payload reuses the seeded id "2" has two
roster entries with the same id, so AddPerson does not preserve
uniqueness of person identifiers. -/
theorem claim_C5_counterexample :
    ¬ ((applyActions initialState
          [(0, .addPerson dupPersonC5)]).persons.map Person.id).Nodup := by
  decide

/-- C5 (amended): in every state reachable from the initial state by a
roster-safe sequence of store actions (each AddPerson id fresh when
applied, no UpdatePerson patch rewriting an id), person identifiers are
unique across the roster; the store itself does not enforce this. -/
theorem claim_C5_unique_ids (actions : List (Nat × AttendanceAction))
    (hsafe : rosterSafe initialState actions = true) :
    ((applyActions initialState actions).persons.map Person.id).Nodup :=
  (roster_accounting actions initialState (by decide) hsafe).1

/-- A fresh person with id "7". -/
def witnessPersonC5 : Person :=
  { id := "7", name := "Gina", email := none, department := none,
    imageCount := none, isActive := true, createdAt := 13 }

/-- Witness for the C5 theorem at a concrete roster-safe trace. -/
theorem claim_C5_unique_ids_witness :
    rosterSafe initialState [(3, .addPerson witnessPersonC5)] = true ∧
    ((applyActions initialState
        [(3, .addPerson witnessPersonC5)]).persons.map Person.id).Nodup :=
  ⟨by decide, claim_C5_unique_ids [(3, .addPerson witnessPersonC5)] (by decide)⟩

/-- C3: for every state and every UpdateAttendanceRecord action (any id,
any partial patch), the statistics component of the resulting state is
identical to the statistics component of the input state, even when the
patch sets status to Present or adds a clockOutTime. -/
theorem claim_C3_update_record_stats_frame (now : Nat) (s : AttendanceState)
    (i : String) (u : RecordPatch) :
    (attendanceReducer now s (.updateAttendanceRecord i u)).statistics
      = s.statistics := rfl

/-- C6: the store transition function is a total Lean function over all
states and all ten declared action variants, and the declared but
unhandled UPDATE_STATISTICS variant falls through the default case and
returns the input state unchanged. -/
theorem claim_C6_default_identity (now : Nat) (s : AttendanceState) :
    attendanceReducer now s .updateStatistics = s := rfl

/-- C9: for every state, StartAttendanceSession with a lecture-duration
string sets currentSession.isActive to true, stores that duration and
records the start time, and a subsequent EndAttendanceSession sets
isActive to false and clears both the stored duration and the start
time. -/
theorem claim_C9_session_lifecycle (now now2 : Nat) (s : AttendanceState)
    (d : String) :
    (attendanceReducer now s (.startAttendanceSession d)).currentSession
      = { isActive := true, lectureDuration := some d, startTime := some now } ∧
    (attendanceReducer now2
        (attendanceReducer now s (.startAttendanceSession d))
        .endAttendanceSession).currentSession
      = { isActive := false, lectureDuration := none, startTime := none } :=
  ⟨rfl, rfl⟩

/-- C10: every store action leaves the state components it does not
target unchanged: the three person actions leave attendanceRecords,
trainingSessions and currentSession unchanged (UpdatePerson additionally
leaves statistics unchanged); the two attendance-record actions leave
persons, trainingSessions and currentSession unchanged; the two
training-session actions leave persons, attendanceRecords,
currentSession and statistics unchanged; and the two session actions
leave persons, attendanceRecords, trainingSessions and statistics
unchanged. -/
theorem claim_C10_frame (now : Nat) (s : AttendanceState) (p : Person)
    (r : AttendanceRecord) (t : TrainingSession) (i : String)
    (up : PersonPatch) (ur : RecordPatch) (ut : TrainingPatch) (d : String) :
    (attendanceReducer now s (.addPerson p)).attendanceRecords = s.attendanceRecords ∧
    (attendanceReducer now s (.addPerson p)).trainingSessions = s.trainingSessions ∧
    (attendanceReducer now s (.addPerson p)).currentSession = s.currentSession ∧
    (attendanceReducer now s (.updatePerson i up)).attendanceRecords = s.attendanceRecords ∧
    (attendanceReducer now s (.updatePerson i up)).trainingSessions = s.trainingSessions ∧
    (attendanceReducer now s (.updatePerson i up)).currentSession = s.currentSession ∧
    (attendanceReducer now s (.updatePerson i up)).statistics = s.statistics ∧
    (attendanceReducer now s (.deletePerson i)).attendanceRecords = s.attendanceRecords ∧
    (attendanceReducer now s (.deletePerson i)).trainingSessions = s.trainingSessions ∧
    (attendanceReducer now s (.deletePerson i)).currentSession = s.currentSession ∧
    (attendanceReducer now s (.addAttendanceRecord r)).persons = s.persons ∧
    (attendanceReducer now s (.addAttendanceRecord r)).trainingSessions = s.trainingSessions ∧
    (attendanceReducer now s (.addAttendanceRecord r)).currentSession = s.currentSession ∧
    (attendanceReducer now s (.updateAttendanceRecord i ur)).persons = s.persons ∧
    (attendanceReducer now s (.updateAttendanceRecord i ur)).trainingSessions = s.trainingSessions ∧
    (attendanceReducer now s (.updateAttendanceRecord i ur)).currentSession = s.currentSession ∧
    (attendanceReducer now s (.startTrainingSession t)).persons = s.persons ∧
    (attendanceReducer now s (.startTrainingSession t)).attendanceRecords = s.attendanceRecords ∧
    (attendanceReducer now s (.startTrainingSession t)).currentSession = s.currentSession ∧
    (attendanceReducer now s (.startTrainingSession t)).statistics = s.statistics ∧
    (attendanceReducer now s (.updateTrainingSession i ut)).persons = s.persons ∧
    (attendanceReducer now s (.updateTrainingSession i ut)).attendanceRecords = s.attendanceRecords ∧
    (attendanceReducer now s (.updateTrainingSession i ut)).currentSession = s.currentSession ∧
    (attendanceReducer now s (.updateTrainingSession i ut)).statistics = s.statistics ∧
    (attendanceReducer now s (.startAttendanceSession d)).persons = s.persons ∧
    (attendanceReducer now s (.startAttendanceSession d)).attendanceRecords = s.attendanceRecords ∧
    (attendanceReducer now s (.startAttendanceSession d)).trainingSessions = s.trainingSessions ∧
    (attendanceReducer now s (.startAttendanceSession d)).statistics = s.statistics ∧
    (attendanceReducer now s .endAttendanceSession).persons = s.persons ∧
    (attendanceReducer now s .endAttendanceSession).attendanceRecords = s.attendanceRecords ∧
    (attendanceReducer now s .endAttendanceSession).trainingSessions = s.trainingSessions ∧
    (attendanceReducer now s .endAttendanceSession).statistics = s.statistics :=
  ⟨rfl, rfl, rfl, rfl, rfl, rfl, rfl, rfl, rfl, rfl, rfl, rfl, rfl, rfl, rfl, rfl,
   rfl, rfl, rfl, rfl, rfl, rfl, rfl, rfl, rfl, rfl, rfl, rfl, rfl, rfl, rfl, rfl⟩

/-- An attendance record whose clockInTime is set to the empty string
and whose clockOutTime is unset. -/
def emptyClockInRecC2 : AttendanceRecord :=
  { id := "10", personId := "1", personName := "Abhinav", date := "2024-01-01",
    clockInTime := some "", clockOutTime := none, duration := none,
    status := .absent, confidence := none }

/-- C2 counterexample: a payload whose clockInTime is set (to the empty
string) and whose clockOutTime is unset does not increment totalClockIns,
because the code tests JavaScript truthiness and the empty string is
falsy; so "incremented iff clockInTime is set and clockOutTime is unset"
fails at this concrete input. -/
theorem claim_C2_counterexample :
    emptyClockInRecC2.clockInTime.isSome = true ∧
    emptyClockInRecC2.clockOutTime = none ∧
    (attendanceReducer 0 initialState
        (.addAttendanceRecord emptyClockInRecC2)).statistics.totalClockIns
      = initialState.statistics.totalClockIns := by
  decide

/-- C2 (amended): for every state and AttendanceRecord payload,
AddAttendanceRecord appends the record to attendanceRecords;
totalClockIns is incremented by exactly 1 iff clockInTime is truthy
(set and non-empty) and clockOutTime is falsy (unset or empty), and is
unchanged otherwise; totalClockOuts is incremented by exactly 1 iff
clockOutTime is truthy, unchanged otherwise; presentToday is incremented
by exactly 1 iff the status equals Present, unchanged otherwise. -/
theorem claim_C2_add_record (now : Nat) (s : AttendanceState)
    (r : AttendanceRecord) :
    (attendanceReducer now s (.addAttendanceRecord r)).attendanceRecords
        = s.attendanceRecords ++ [r] ∧
    ((attendanceReducer now s (.addAttendanceRecord r)).statistics.totalClockIns
        = s.statistics.totalClockIns + 1 ↔
      optStrTruthy r.clockInTime = true ∧ optStrTruthy r.clockOutTime = false) ∧
    ((attendanceReducer now s (.addAttendanceRecord r)).statistics.totalClockIns
        = s.statistics.totalClockIns ↔
      ¬(optStrTruthy r.clockInTime = true ∧ optStrTruthy r.clockOutTime = false)) ∧
    ((attendanceReducer now s (.addAttendanceRecord r)).statistics.totalClockOuts
        = s.statistics.totalClockOuts + 1 ↔ optStrTruthy r.clockOutTime = true) ∧
    ((attendanceReducer now s (.addAttendanceRecord r)).statistics.totalClockOuts
        = s.statistics.totalClockOuts ↔ optStrTruthy r.clockOutTime = false) ∧
    ((attendanceReducer now s (.addAttendanceRecord r)).statistics.presentToday
        = s.statistics.presentToday + 1 ↔ r.status = .present) ∧
    ((attendanceReducer now s (.addAttendanceRecord r)).statistics.presentToday
        = s.statistics.presentToday ↔ r.status ≠ .present) := by
  cases hin : optStrTruthy r.clockInTime <;>
    cases hout : optStrTruthy r.clockOutTime <;>
    by_cases hst : r.status = .present <;>
    simp [attendanceReducer, hin, hout, hst]

/-- C4 (amended): for each of UpdatePerson, UpdateAttendanceRecord and
UpdateTrainingSession, every entity in the target collection whose id
equals the given id receives the patch, positionally in place (not only
the first match), and entities whose id differs are left unchanged; when
no entity matches, the action is a no-op on the collection. -/
theorem claim_C4_update_all_matches (now : Nat) (s : AttendanceState)
    (i : String) (up : PersonPatch) (ur : RecordPatch) (ut : TrainingPatch) :
    (∀ k : Nat,
      ((attendanceReducer now s (.updatePerson i up)).persons)[k]?
        = (s.persons[k]?).map fun p =>
            if p.id = i then mergePerson p up else p) ∧
    ((∀ p ∈ s.persons, p.id ≠ i) →
      (attendanceReducer now s (.updatePerson i up)).persons = s.persons) ∧
    (∀ k : Nat,
      ((attendanceReducer now s (.updateAttendanceRecord i ur)).attendanceRecords)[k]?
        = (s.attendanceRecords[k]?).map fun rec =>
            if rec.id = i then mergeRecord rec ur else rec) ∧
    ((∀ rec ∈ s.attendanceRecords, rec.id ≠ i) →
      (attendanceReducer now s (.updateAttendanceRecord i ur)).attendanceRecords
        = s.attendanceRecords) ∧
    (∀ k : Nat,
      ((attendanceReducer now s (.updateTrainingSession i ut)).trainingSessions)[k]?
        = (s.trainingSessions[k]?).map fun ts =>
            if ts.id = i then mergeSession ts ut else ts) ∧
    ((∀ ts ∈ s.trainingSessions, ts.id ≠ i) →
      (attendanceReducer now s (.updateTrainingSession i ut)).trainingSessions
        = s.trainingSessions) := by
  refine ⟨?_, ?_, ?_, ?_, ?_, ?_⟩
  · intro k
    simp [attendanceReducer, List.getElem?_map]
  · intro h
    show s.persons.map (fun person =>
        if person.id = i then mergePerson person up else person) = s.persons
    have he : ∀ q ∈ s.persons,
        (if q.id = i then mergePerson q up else q) = q := by
      intro q hq
      rw [if_neg (h q hq)]
    rw [List.map_congr_left he, List.map_id']
  · intro k
    simp [attendanceReducer, List.getElem?_map]
  · intro h
    show s.attendanceRecords.map (fun record =>
        if record.id = i then mergeRecord record ur else record)
      = s.attendanceRecords
    have he : ∀ q ∈ s.attendanceRecords,
        (if q.id = i then mergeRecord q ur else q) = q := by
      intro q hq
      rw [if_neg (h q hq)]
    rw [List.map_congr_left he, List.map_id']
  · intro k
    simp [attendanceReducer, List.getElem?_map]
  · intro h
    show s.trainingSessions.map (fun session =>
        if session.id = i then mergeSession session ut else session)
      = s.trainingSessions
    have he : ∀ q ∈ s.trainingSessions,
        (if q.id = i then mergeSession q ut else q) = q := by
      intro q hq
      rw [if_neg (h q hq)]
    rw [List.map_congr_left he, List.map_id']

/-- First of two attendance records sharing id "7". -/
def recAC4 : AttendanceRecord :=
  { id := "7", personId := "1", personName := "Abhinav", date := "2024-01-02",
    clockInTime := some "09:00:00", clockOutTime := none, duration := none,
    status := .present, confidence := some 90 }

/-- Second of two attendance records sharing id "7". -/
def recBC4 : AttendanceRecord :=
  { id := "7", personId := "2", personName := "Venkat", date := "2024-01-02",
    clockInTime := some "09:05:00", clockOutTime := none, duration := none,
    status := .present, confidence := some 85 }

/-- A state whose record list contains two records with the same id. -/
def stateC4 : AttendanceState :=
  { initialState with attendanceRecords := [recAC4, recBC4] }

/-- The patch applied in the C4 counterexample. -/
def patchC4 : RecordPatch := { personName := some "Patched" }

/-- C4 counterexample: with two attendance records sharing id "7",
UpdateAttendanceRecord patches both of them; the second (later)
positional match is changed rather than left unchanged, refuting the
first-match-only claim. -/
theorem claim_C4_counterexample :
    ((attendanceReducer 0 stateC4
        (.updateAttendanceRecord "7" patchC4)).attendanceRecords)[1]?
      = some (mergeRecord recBC4 patchC4) ∧
    mergeRecord recBC4 patchC4 ≠ recBC4 := by
  decide

/-- Witness for the C4 theorem: concrete instantiation at the initial
state with an id matching no entity. -/
theorem claim_C4_update_all_matches_witness :
    ((attendanceReducer 0 initialState (.updatePerson "99" {})).persons)[0]?
      = (initialState.persons[0]?).map (fun p =>
          if p.id = "99" then mergePerson p {} else p) ∧
    (attendanceReducer 0 initialState (.updatePerson "99" {})).persons
      = initialState.persons :=
  ⟨(claim_C4_update_all_matches 0 initialState "99" {} {} {}).1 0,
   (claim_C4_update_all_matches 0 initialState "99" {} {} {}).2.1 (by decide)⟩

/-- Model of JavaScript `String.split(sep)` for a one-character
separator, on the character list of the string.  Splitting the empty
string yields one empty field, like JS. -/
def splitOnChar (sep : Char) : List Char → List (List Char)
  | [] => [[]]
  | c :: rest =>
      match splitOnChar sep rest with
      | [] => if c = sep then [[], []] else [[c]]
      | h :: t => if c = sep then [] :: h :: t else (c :: h) :: t

/-- Model of JavaScript `Number()` on a split time field: a non-empty
all-digit field parses to its decimal value; anything else would be NaN
and is modelled as `none`. -/
def digitsToNat (cs : List Char) : Option Nat :=
  if cs ≠ [] ∧ cs.all Char.isDigit then
    some (cs.foldl (fun n c => 10 * n + (c.toNat - 48)) 0)
  else none

/-- Model of the destructuring `clockIn.split(':').map(Number)` into
three components: the first three fields parsed as numbers. JS paths
that would yield NaN (a missing or non-numeric field) are modelled as
`none`; extra fields beyond the third are ignored, exactly as the
three-variable destructuring ignores them. -/
def parseHMS (s : String) : Option (Nat × Nat × Nat) :=
  match (splitOnChar ':' s.toList).map digitsToNat with
  | some a :: some b :: some c :: _ => some (a, b, c)
  | _ => none

/-- Model of JavaScript `.padStart(2, '0')`. -/
def padStart2 (s : String) : String :=
  if s.length ≥ 2 then s else if s.length = 1 then "0" ++ s else "00"

/-- Model of `calculateDuration` from the MarkAttendance page.  JS
`Math.floor(x / y)` on integers is `Int.fdiv`; the JS remainder
operator truncates toward zero, which is `Int.tmod`. -/
def calculateDuration (clockIn clockOut : String) : Option String :=
  match parseHMS clockIn, parseHMS clockOut with
  | some (inHours, inMinutes, inSeconds), some (outHours, outMinutes, outSeconds) =>
      let inTime : Int :=
        (inHours : Int) * 3600 + (inMinutes : Int) * 60 + (inSeconds : Int)
      let outTime : Int :=
        (outHours : Int) * 3600 + (outMinutes : Int) * 60 + (outSeconds : Int)
      let duration := outTime - inTime
      let hours := duration.fdiv 3600
      let minutes := (duration.tmod 3600).fdiv 60
      let seconds := duration.tmod 60
      some (padStart2 (toString hours) ++ ":" ++ padStart2 (toString minutes)
            ++ ":" ++ padStart2 (toString seconds))
  | _, _ => none

/-- The zero-padded `HH:MM:SS` rendering of a number of seconds, used to
state the duration claim. -/
def renderHMS (d : Nat) : String :=
  padStart2 (toString (d / 3600)) ++ ":" ++ padStart2 (toString (d % 3600 / 60))
    ++ ":" ++ padStart2 (toString (d % 60))

lemma fdiv_ofNat (m n : Nat) :
    Int.fdiv (Int.ofNat m) (Int.ofNat n) = Int.ofNat (m / n) := by
  cases m with
  | zero => rw [Nat.zero_div]; rfl
  | succ k => rfl

lemma tmod_ofNat (m n : Nat) :
    Int.tmod (Int.ofNat m) (Int.ofNat n) = Int.ofNat (m % n) := rfl

lemma toString_intOfNat (k : Nat) : toString ((k : Nat) : Int) = toString k := rfl

lemma renderHMS_int (d : Nat) :
    padStart2 (toString ((d : Int).fdiv 3600)) ++ ":" ++
      padStart2 (toString (((d : Int).tmod 3600).fdiv 60)) ++ ":" ++
      padStart2 (toString ((d : Int).tmod 60)) = renderHMS d := by
  have h1 : ((d : Int)).fdiv 3600 = ((d / 3600 : Nat) : Int) := fdiv_ofNat d 3600
  have h2 : ((d : Int)).tmod 3600 = ((d % 3600 : Nat) : Int) := tmod_ofNat d 3600
  have h3 : (((d % 3600 : Nat) : Int)).fdiv 60 = ((d % 3600 / 60 : Nat) : Int) :=
    fdiv_ofNat (d % 3600) 60
  have h4 : ((d : Int)).tmod 60 = ((d % 60 : Nat) : Int) := tmod_ofNat d 60
  rw [h1, h2, h3, h4, toString_intOfNat, toString_intOfNat, toString_intOfNat]
  rfl

/-- C7: for well-formed `HH:MM:SS` inputs whose clock-out is not earlier
than the clock-in, the duration computation returns the zero-padded
`HH:MM:SS` rendering of the difference in seconds (in particular,
clock-in "09:00:00" and clock-out "10:30:15" yield "01:30:15", as the
witness instantiates). -/
theorem claim_C7_duration (sIn sOut : String) (h1 m1 s1 h2 m2 s2 : Nat)
    (hin : parseHMS sIn = some (h1, m1, s1))
    (hout : parseHMS sOut = some (h2, m2, s2))
    (hle : h1 * 3600 + m1 * 60 + s1 ≤ h2 * 3600 + m2 * 60 + s2) :
    calculateDuration sIn sOut
      = some (renderHMS ((h2 * 3600 + m2 * 60 + s2)
                          - (h1 * 3600 + m1 * 60 + s1))) := by
  have hd : ((h2 : Int) * 3600 + (m2 : Int) * 60 + (s2 : Int))
      - ((h1 : Int) * 3600 + (m1 : Int) * 60 + (s1 : Int))
      = (((h2 * 3600 + m2 * 60 + s2) - (h1 * 3600 + m1 * 60 + s1) : Nat) : Int) := by
    omega
  simp only [calculateDuration, hin, hout]
  rw [hd, renderHMS_int]

/-- Witness for C7: the concrete clock-in "09:00:00" and clock-out
"10:30:15" from the spec produce the duration string "01:30:15". -/
theorem claim_C7_duration_witness :
    parseHMS "09:00:00" = some (9, 0, 0) ∧
    parseHMS "10:30:15" = some (10, 30, 15) ∧
    9 * 3600 + 0 * 60 + 0 ≤ 10 * 3600 + 30 * 60 + 15 ∧
    calculateDuration "09:00:00" "10:30:15" = some "01:30:15" :=
  ⟨rfl, rfl, by norm_num,
   (claim_C7_duration "09:00:00" "10:30:15" 9 0 0 10 30 15 rfl rfl
      (by norm_num)).trans rfl⟩

/-- JavaScript whitespace characters matched by `\s` and removed by
`trim()` (the ASCII ones; the claim's inputs contain only these). -/
def isSpaceJS (c : Char) : Bool :=
  c = ' ' || c = '\t' || c = '\n' || c = '\r' || c = '\x0b' || c = '\x0c'

/-- Model of JavaScript `String.trim()`: strip whitespace from both
ends. -/
def trimJS (s : String) : String :=
  String.mk (((s.toList.dropWhile isSpaceJS).reverse.dropWhile isSpaceJS).reverse)

/-- The registration form state (`formData` in AddPerson.tsx). -/
structure RegistrationForm where
  id : String
  name : String
  email : String
  department : String
deriving DecidableEq, Repr

/-- The field-error mapping produced by the validation (`newErrors`);
`none` models an absent key. -/
structure FormErrors where
  id : Option String
  name : Option String
  email : Option String
deriving DecidableEq, Repr

/-- The regex test `/^\d+$/.test(s)`: non-empty and all digits. -/
def matchesAllDigits (s : String) : Bool :=
  !s.toList.isEmpty && s.toList.all Char.isDigit

/-- The regex test `/^[a-zA-Z\s]+$/.test(s)`: non-empty, letters and
whitespace only. -/
def matchesNameRe (s : String) : Bool :=
  !s.toList.isEmpty && s.toList.all fun c => c.isAlpha || isSpaceJS c

/-- A character in the email regex's `[^\s@]` classes. -/
def isEmailChar (c : Char) : Bool := !isSpaceJS c && !(c = '@')

/-- The regex test `/^[^\s@]+@[^\s@]+\.[^\s@]+$/.test(s)`: exactly one
`@`, a non-empty local part of `[^\s@]` characters, and a domain part of
`[^\s@]` characters containing a dot with at least one character on
each side (the matched dot is interior; the class also admits dots, so
the flanking parts may themselves contain or end with dots). -/
def matchesEmailRe (s : String) : Bool :=
  match splitOnChar '@' s.toList with
  | [l, r] =>
      !l.isEmpty && l.all isEmailChar && r.all isEmailChar &&
        ((r.drop 1).dropLast.contains '.')
  | _ => false

/-- Model of `validateForm` from AddPerson.tsx: the three conditional
error assignments, in source order. -/
def validateForm (formData : RegistrationForm) : FormErrors :=
  { id :=
      if trimJS formData.id = "" then some "ID is required"
      else if matchesAllDigits formData.id = false then some "ID must be numeric"
      else none
    name :=
      if trimJS formData.name = "" then some "Name is required"
      else if matchesNameRe formData.name = false then
        some "Name must contain only letters"
      else none
    email :=
      if formData.email ≠ "" ∧ matchesEmailRe formData.email = false then
        some "Invalid email format"
      else none }

/-- The submission gate `Object.keys(newErrors).length === 0`: no field
has an error. -/
def formValid (formData : RegistrationForm) : Bool :=
  (validateForm formData).id.isNone && (validateForm formData).name.isNone &&
    (validateForm formData).email.isNone

lemma all_of_all_dropWhile (p : Char → Bool) (l : List Char)
    (h : ∀ x ∈ l.dropWhile p, p x = true) : ∀ x ∈ l, p x = true := by
  intro x hx
  rw [← List.takeWhile_append_dropWhile p l] at hx
  rcases List.mem_append.mp hx with h1 | h2
  · exact List.mem_takeWhile_imp h1
  · exact h x h2

lemma listTrim_eq_nil_iff (p : Char → Bool) (l : List Char) :
    ((l.dropWhile p).reverse.dropWhile p).reverse = [] ↔ ∀ x ∈ l, p x = true := by
  rw [List.reverse_eq_nil_iff, List.dropWhile_eq_nil_iff]
  constructor
  · intro h
    apply all_of_all_dropWhile p l
    intro x hx
    exact h x (List.mem_reverse.mpr hx)
  · intro h x hx
    exact h x ((List.dropWhile_sublist p).mem (List.mem_reverse.mp hx))

lemma trimJS_eq_empty_iff (s : String) :
    trimJS s = "" ↔ ∀ c ∈ s.toList, isSpaceJS c = true := by
  rw [trimJS, String.ext_iff]
  exact listTrim_eq_nil_iff isSpaceJS s.toList

lemma string_eq_empty_iff (s : String) : s = "" ↔ s.toList = [] := by
  rw [String.ext_iff]
  exact Iff.rfl

lemma not_space_of_digit (c : Char) (h : c.isDigit = true) : isSpaceJS c = false := by
  cases hs : isSpaceJS c
  · rfl
  · exfalso
    simp only [isSpaceJS, Bool.or_eq_true, decide_eq_true_eq] at hs
    rcases hs with ((((h1 | h1) | h1) | h1) | h1) | h1 <;> rw [h1] at h <;>
      exact absurd h (by decide)

lemma not_space_of_alpha (c : Char) (h : c.isAlpha = true) : isSpaceJS c = false := by
  cases hs : isSpaceJS c
  · rfl
  · exfalso
    simp only [isSpaceJS, Bool.or_eq_true, decide_eq_true_eq] at hs
    rcases hs with ((((h1 | h1) | h1) | h1) | h1) | h1 <;> rw [h1] at h <;>
      exact absurd h (by decide)

lemma ite_err_none_iff (c1 c2 : Prop) [Decidable c1] [Decidable c2] (e1 e2 : String) :
    ((if c1 then some e1 else if c2 then some e2 else none) = none) ↔ (¬ c1 ∧ ¬ c2) := by
  by_cases h1 : c1 <;> by_cases h2 : c2 <;> simp [h1, h2]

lemma ite_err_none_iff1 (c : Prop) [Decidable c] (e : String) :
    ((if c then some e else none) = none) ↔ ¬ c := by
  by_cases h : c <;> simp [h]

lemma id_component_iff (s : String) :
    (¬ trimJS s = "" ∧ ¬ matchesAllDigits s = false) ↔
      (s ≠ "" ∧ s.toList.all Char.isDigit = true) := by
  rw [Bool.not_eq_false, matchesAllDigits, Bool.and_eq_true, Bool.not_eq_true',
    List.isEmpty_eq_false]
  constructor
  · rintro ⟨-, hne, hdig⟩
    exact ⟨fun he => hne ((string_eq_empty_iff s).mp he), hdig⟩
  · rintro ⟨hse, hdig⟩
    have hne : s.toList ≠ [] := fun he => hse ((string_eq_empty_iff s).mpr he)
    refine ⟨?_, hne, hdig⟩
    intro htr
    obtain ⟨c, hc⟩ := List.exists_mem_of_ne_nil s.toList hne
    have hsp := (trimJS_eq_empty_iff s).mp htr c hc
    have hdc := (List.all_eq_true.mp hdig) c hc
    rw [not_space_of_digit c hdc] at hsp
    exact Bool.false_ne_true hsp

lemma name_component_iff (s : String) :
    (¬ trimJS s = "" ∧ ¬ matchesNameRe s = false) ↔
      ((∃ c ∈ s.toList, c.isAlpha = true) ∧
        s.toList.all (fun c => c.isAlpha || isSpaceJS c) = true) := by
  rw [Bool.not_eq_false, matchesNameRe, Bool.and_eq_true, Bool.not_eq_true',
    List.isEmpty_eq_false]
  constructor
  · rintro ⟨htr, -, hall⟩
    refine ⟨?_, hall⟩
    have hnall : ¬ ∀ c ∈ s.toList, isSpaceJS c = true := fun h =>
      htr ((trimJS_eq_empty_iff s).mpr h)
    push_neg at hnall
    obtain ⟨c, hc, hns⟩ := hnall
    have hcc := (List.all_eq_true.mp hall) c hc
    rw [Bool.or_eq_true] at hcc
    rcases hcc with ha | hsp
    · exact ⟨c, hc, ha⟩
    · exact absurd hsp hns
  · rintro ⟨⟨c, hc, ha⟩, hall⟩
    have hne : s.toList ≠ [] := List.ne_nil_of_mem hc
    refine ⟨?_, hne, hall⟩
    intro htr
    have hsp := (trimJS_eq_empty_iff s).mp htr c hc
    rw [not_space_of_alpha c ha] at hsp
    exact Bool.false_ne_true hsp

lemma email_component_iff (s : String) :
    (¬ (s ≠ "" ∧ matchesEmailRe s = false)) ↔
      (s = "" ∨ matchesEmailRe s = true) := by
  rw [not_and_or, not_not, Bool.not_eq_false]

/-- C8 (amended): registration-form validation accepts a submission iff
the identifier is non-empty and all digits, the name contains at least
one letter and consists only of letters and whitespace (an all-whitespace
name is rejected by the required-field trim check), and the email is
empty or matches the basic local@domain.tld regex; concretely,
identifier "12a" is rejected, name "John Doe" is accepted, name "John3"
is rejected, email "not-an-email" is rejected, and an empty email is
accepted. -/
theorem claim_C8_validation :
    (∀ f : RegistrationForm,
      formValid f = true ↔
        ((f.id ≠ "" ∧ f.id.toList.all Char.isDigit = true) ∧
         ((∃ c ∈ f.name.toList, c.isAlpha = true) ∧
            f.name.toList.all (fun c => c.isAlpha || isSpaceJS c) = true) ∧
         (f.email = "" ∨ matchesEmailRe f.email = true))) ∧
    formValid { id := "12a", name := "John Doe", email := "", department := "" } = false ∧
    formValid { id := "12", name := "John Doe", email := "", department := "" } = true ∧
    formValid { id := "12", name := "John3", email := "", department := "" } = false ∧
    formValid { id := "12", name := "John Doe", email := "not-an-email",
                department := "" } = false ∧
    formValid { id := "12", name := "John Doe", email := "john@example.com",
                department := "" } = true := by
  refine ⟨?_, by decide, by decide, by decide, by decide, by decide⟩
  intro f
  rw [formValid]
  simp only [Bool.and_eq_true, Option.isNone_iff_eq_none, validateForm]
  rw [ite_err_none_iff, ite_err_none_iff, ite_err_none_iff1]
  rw [id_component_iff, name_component_iff, email_component_iff]
  tauto

/-- C8 counterexample: the all-whitespace name " " is non-empty and
consists only of letters and whitespace, so the claim's iff would accept
the submission, but the code's trim-based required check rejects it
("Name is required"). -/
theorem claim_C8_counterexample :
    formValid { id := "1", name := " ", email := "", department := "" } = false ∧
    (" " : String) ≠ "" ∧
    (" " : String).toList.all (fun c => c.isAlpha || isSpaceJS c) = true ∧
    (validateForm { id := "1", name := " ", email := "", department := "" }).name
      = some "Name is required" := by
  decide
